import Mathlib

/-!
Verification of the payment dispatch and settlement engine.

Monetary amounts and rates are modelled as rationals (`ℚ`); JavaScript's
`x.toFixed(2)` rounding of a non-negative 2-decimal computation is modelled
by `round2` (round half towards positive infinity at the second decimal,
which is ECMAScript's tie-breaking rule for `toFixed`).  A JavaScript value
that may be `NaN` after `parseFloat` is modelled as `Option ℚ` with `none`
standing for `NaN`.
-/

namespace LunafirPay

/-- `parseFloat((x).toFixed(2))`: round to two decimal places, ties going to
the larger candidate, as ECMAScript's `toFixed` specifies. -/
def round2 (q : ℚ) : ℚ := (⌊q * 100 + 1/2⌋ : ℚ) / 100

/-- `normalizeRateToDecimal` from the pay router: `parseFloat` the raw rate
(`none` models `NaN`), return 0 for `NaN`, divide by 100 when the value is
at least 1 (legacy percentage format), and return it unchanged otherwise. -/
def normalizeRateToDecimal : Option ℚ → ℚ
  | none => 0
  | some v => if 1 ≤ v then v / 100 else v

/-!
## Signature codec (utils helpers `md5Sign`, `createSign`, `verifySign`)

MD5 is implemented bit-for-bit (RFC 1321) over byte lists, with 32-bit words
as naturals reduced mod `2 ^ 32`.  `md5Sign` hashes the UTF-8 bytes of a
string and renders the digest as lowercase hex, exactly as
`crypto.createHash('md5').update(str).digest('hex')` does.
-/

def mask32 : Nat := 2 ^ 32 - 1

/-- Left-rotation of a 32-bit word (`x < 2 ^ 32`, `s ≤ 32`). -/
def rotl32 (x s : Nat) : Nat := (x % 2 ^ (32 - s)) * 2 ^ s + x / 2 ^ (32 - s)

def md5K : List Nat :=
  [0xd76aa478, 0xe8c7b756, 0x242070db, 0xc1bdceee,
   0xf57c0faf, 0x4787c62a, 0xa8304613, 0xfd469501,
   0x698098d8, 0x8b44f7af, 0xffff5bb1, 0x895cd7be,
   0x6b901122, 0xfd987193, 0xa679438e, 0x49b40821,
   0xf61e2562, 0xc040b340, 0x265e5a51, 0xe9b6c7aa,
   0xd62f105d, 0x02441453, 0xd8a1e681, 0xe7d3fbc8,
   0x21e1cde6, 0xc33707d6, 0xf4d50d87, 0x455a14ed,
   0xa9e3e905, 0xfcefa3f8, 0x676f02d9, 0x8d2a4c8a,
   0xfffa3942, 0x8771f681, 0x6d9d6122, 0xfde5380c,
   0xa4beea44, 0x4bdecfa9, 0xf6bb4b60, 0xbebfbc70,
   0x289b7ec6, 0xeaa127fa, 0xd4ef3085, 0x04881d05,
   0xd9d4d039, 0xe6db99e5, 0x1fa27cf8, 0xc4ac5665,
   0xf4292244, 0x432aff97, 0xab9423a7, 0xfc93a039,
   0x655b59c3, 0x8f0ccc92, 0xffeff47d, 0x85845dd1,
   0x6fa87e4f, 0xfe2ce6e0, 0xa3014314, 0x4e0811a1,
   0xf7537e82, 0xbd3af235, 0x2ad7d2bb, 0xeb86d391]

def md5S : List Nat :=
  [7, 12, 17, 22, 7, 12, 17, 22, 7, 12, 17, 22, 7, 12, 17, 22,
   5,  9, 14, 20, 5,  9, 14, 20, 5,  9, 14, 20, 5,  9, 14, 20,
   4, 11, 16, 23, 4, 11, 16, 23, 4, 11, 16, 23, 4, 11, 16, 23,
   6, 10, 15, 21, 6, 10, 15, 21, 6, 10, 15, 21, 6, 10, 15, 21]

def md5F (b c d : Nat) : Nat := (b &&& c) ||| ((b ^^^ mask32) &&& d)

def md5G (b c d : Nat) : Nat := (d &&& b) ||| ((d ^^^ mask32) &&& c)

def md5H (b c d : Nat) : Nat := b ^^^ c ^^^ d

def md5I (b c d : Nat) : Nat := c ^^^ (b ||| (d ^^^ mask32))

/-- One of the 64 MD5 rounds, acting on the `(a, b, c, d)` state with the
16-word message block `M`. -/
def md5Round (M : List Nat) (st : Nat × Nat × Nat × Nat) (i : Nat) :
    Nat × Nat × Nat × Nat :=
  let (a, b, c, d) := st
  let f :=
    if i < 16 then md5F b c d
    else if i < 32 then md5G b c d
    else if i < 48 then md5H b c d
    else md5I b c d
  let g :=
    if i < 16 then i
    else if i < 32 then (5 * i + 1) % 16
    else if i < 48 then (3 * i + 5) % 16
    else (7 * i) % 16
  let tmp := (f + a + md5K.getD i 0 + M.getD g 0) % 2 ^ 32
  (d, (b + rotl32 tmp (md5S.getD i 0)) % 2 ^ 32, b, c)

/-- Process one 16-word block and add the result into the running state. -/
def md5Block (st : Nat × Nat × Nat × Nat) (M : List Nat) :
    Nat × Nat × Nat × Nat :=
  let (a, b, c, d) := (List.range 64).foldl (md5Round M) st
  ((st.1 + a) % 2 ^ 32, (st.2.1 + b) % 2 ^ 32,
   (st.2.2.1 + c) % 2 ^ 32, (st.2.2.2 + d) % 2 ^ 32)

/-- Merkle–Damgård padding: `0x80`, zeros to 56 mod 64, then the bit length
as 8 little-endian bytes. -/
def md5Pad (msg : List Nat) : List Nat :=
  let len := msg.length
  let zeros := (64 + 56 - (len + 1) % 64) % 64
  let lenBits := (len * 8) % 2 ^ 64
  msg ++ [0x80] ++ List.replicate zeros 0 ++
    ((List.range 8).map fun i => lenBits / 2 ^ (8 * i) % 256)

/-- Four little-endian bytes into one 32-bit word. -/
def bytesToWords : List Nat → List Nat
  | b0 :: b1 :: b2 :: b3 :: rest =>
      (b0 + b1 * 256 + b2 * 65536 + b3 * 16777216) :: bytesToWords rest
  | _ => []

/-- Split a byte list into 64-byte chunks (structural recursion on a fuel
bound so the kernel can evaluate concrete digests). -/
def toBlocksAux : Nat → List Nat → List (List Nat)
  | 0, _ => []
  | _, [] => []
  | fuel + 1, l => l.take 64 :: toBlocksAux fuel (l.drop 64)

/-- Split a byte list into 64-byte chunks. -/
def toBlocks (l : List Nat) : List (List Nat) := toBlocksAux l.length l

def md5Init : Nat × Nat × Nat × Nat :=
  (0x67452301, 0xefcdab89, 0x98badcfe, 0x10325476)

def word32ToBytes (w : Nat) : List Nat :=
  [w % 256, w / 256 % 256, w / 65536 % 256, w / 16777216 % 256]

/-- The 16-byte MD5 digest of a byte list. -/
def md5Digest (msg : List Nat) : List Nat :=
  let st := (toBlocks (md5Pad msg)).foldl
    (fun st blk => md5Block st (bytesToWords blk)) md5Init
  word32ToBytes st.1 ++ word32ToBytes st.2.1 ++
    word32ToBytes st.2.2.1 ++ word32ToBytes st.2.2.2

def hexChar (n : Nat) : Char :=
  if n < 10 then Char.ofNat (48 + n) else Char.ofNat (87 + n)

def bytesToHex (bs : List Nat) : String :=
  ⟨bs.foldr (fun b acc => hexChar (b / 16) :: hexChar (b % 16) :: acc) []⟩

/-- UTF-8 encoding of a single character (what `hash.update(str)` feeds MD5). -/
def utf8Bytes (c : Char) : List Nat :=
  let n := c.toNat
  if n < 0x80 then [n]
  else if n < 0x800 then [0xC0 + n / 64, 0x80 + n % 64]
  else if n < 0x10000 then [0xE0 + n / 4096, 0x80 + n / 64 % 64, 0x80 + n % 64]
  else [0xF0 + n / 262144, 0x80 + n / 4096 % 64, 0x80 + n / 64 % 64, 0x80 + n % 64]

def strBytes (s : String) : List Nat := (s.data.map utf8Bytes).flatten

/-- `md5Sign` from the utils module: lowercase-hex MD5 of a string. -/
def md5Sign (s : String) : String := bytesToHex (md5Digest (strBytes s))

/-- Lexicographic comparison of character lists by code point — the order
JavaScript's default `Array.prototype.sort` uses on (ASCII) key strings. -/
def charListLe : List Char → List Char → Bool
  | [], _ => true
  | _ :: _, [] => false
  | a :: as, b :: bs =>
    if a.toNat < b.toNat then true
    else if b.toNat < a.toNat then false
    else charListLe as bs

def keyLe (a b : String × String) : Bool := charListLe a.1.data b.1.data

def orderedInsertKey (kv : String × String) :
    List (String × String) → List (String × String)
  | [] => [kv]
  | x :: xs => if keyLe kv x then kv :: x :: xs else x :: orderedInsertKey kv xs

/-- Stable ascending sort of parameter pairs by key. -/
def sortByKey (l : List (String × String)) : List (String × String) :=
  l.foldr orderedInsertKey []

/-- The canonical parameter string shared by `createSign` and `verifySign`:
drop the `sign` and `sign_type` keys and empty values, sort the remaining
keys ascending, and join as `k=v` pairs with `&`. -/
def canonicalString (params : List (String × String)) : String :=
  let kept := params.filter fun kv =>
    kv.1 != "sign" && kv.1 != "sign_type" && kv.2 != ""
  String.intercalate "&" ((sortByKey kept).map fun kv => kv.1 ++ "=" ++ kv.2)

/-- `createSign(params, key)` from the utils module. -/
def createSign (params : List (String × String)) (key : String) : String :=
  md5Sign (canonicalString params ++ key)

/-- `verifySign(params, key, sign)` from the utils module: recompute the
expected signature over the canonical string and compare for equality. -/
def verifySign (params : List (String × String)) (key : String)
    (sign : String) : Bool :=
  md5Sign (canonicalString params ++ key) == sign

/-!
## JavaScript numeric parsing

`parseIntJS` and `parseFloatJS` model `parseInt(s)` / `parseFloat(s)` with
`none` for `NaN`.  (`parseFloatJS` covers sign, integer and fraction digits;
exponent notation does not occur in the engine's inputs.)
-/

def isWs (c : Char) : Bool := c == ' ' || c == '\t' || c == '\n' || c == '\r'

def decDigitVal (c : Char) : Option Nat :=
  let n := c.toNat
  if 48 ≤ n && n ≤ 57 then some (n - 48) else none

def hexDigitVal (c : Char) : Option Nat :=
  let n := c.toNat
  if 48 ≤ n && n ≤ 57 then some (n - 48)
  else if 97 ≤ n && n ≤ 102 then some (n - 87)
  else if 65 ≤ n && n ≤ 70 then some (n - 55)
  else none

/-- Accumulate leading digits (given a digit reader and base); `none` when
no digit at all was read, mirroring `parseInt` returning `NaN`. -/
def parseDigits (dv : Char → Option Nat) (base : Nat) :
    List Char → Option Nat → Option Nat
  | [], acc => acc
  | c :: cs, acc =>
    match dv c with
    | none => acc
    | some v => parseDigits dv base cs (some (acc.getD 0 * base + v))

/-- `parseInt(s)` with no radix argument: skip whitespace, optional sign,
`0x`/`0X` switches to hex, then the longest digit prefix. -/
def parseIntJS (s : String) : Option ℤ :=
  let cs := s.data.dropWhile isWs
  let signed : ℤ × List Char :=
    match cs with
    | '-' :: rest => (-1, rest)
    | '+' :: rest => (1, rest)
    | _ => (1, cs)
  let mag : Option Nat :=
    match signed.2 with
    | '0' :: 'x' :: rest => parseDigits hexDigitVal 16 rest none
    | '0' :: 'X' :: rest => parseDigits hexDigitVal 16 rest none
    | _ => parseDigits decDigitVal 10 signed.2 none
  mag.map fun m => signed.1 * m

/-- Leading decimal digits of a character list, and the remainder. -/
def splitDigits : List Char → List Nat × List Char
  | [] => ([], [])
  | c :: cs =>
    match decDigitVal c with
    | some v =>
      let r := splitDigits cs
      (v :: r.1, r.2)
    | none => ([], c :: cs)

def digitsToNat (ds : List Nat) : Nat := ds.foldl (fun a d => a * 10 + d) 0

/-- `parseFloat(s)`: skip whitespace, optional sign, integer digits,
optional fraction digits; `none` when no digit at all was read. -/
def parseFloatJS (s : String) : Option ℚ :=
  let cs := s.data.dropWhile isWs
  let signed : ℚ × List Char :=
    match cs with
    | '-' :: rest => (-1, rest)
    | '+' :: rest => (1, rest)
    | _ => (1, cs)
  let ip := splitDigits signed.2
  match ip.2 with
  | '.' :: tail =>
    let fp := splitDigits tail
    if ip.1.isEmpty && fp.1.isEmpty then none
    else some (signed.1 * ((digitsToNat ip.1 : ℚ) +
      (digitsToNat fp.1 : ℚ) / 10 ^ fp.1.length))
  | _ => if ip.1.isEmpty then none else some (signed.1 * (digitsToNat ip.1 : ℚ))

/-!
## Orders and `createOrder`

The `orders` table is a list of rows; SQL `UPDATE ... WHERE id = ?` becomes
a map over the list, and the `SELECT ... ORDER BY id DESC LIMIT 1` of
`createOrder` picks the matching row of largest `id`.
-/

structure OrderRow where
  id : Nat
  merchant_id : Nat
  channel_id : Option Nat := none
  trade_no : String
  out_trade_no : String
  pay_type : String
  name : String := ""
  money : ℚ
  real_money : ℚ := 0
  fee_money : ℚ := 0
  fee_payer : String := "merchant"
  client_ip : String := ""
  notify_url : String := ""
  return_url : String := ""
  status : Nat := 0
  cert_info : Option String := none
  plugin_name : Option String := none
  api_trade_no : Option String := none
  buyer : Option String := none
  paid_at : Bool := false
  balance_added : Bool := false
  notify_status : Nat := 0
  notify_count : Nat := 0
deriving DecidableEq, Repr

/-- The argument record of `createOrder`. -/
structure CreateData where
  merchantId : Nat
  channelId : Option Nat := none
  tradeNo : String
  outTradeNo : String
  type : String := ""
  name : String := ""
  money : ℚ
  clientIp : String := ""
  notifyUrl : String := ""
  returnUrl : String := ""
  feeRate : ℚ := 0
  feePayer : String := "merchant"
  certInfo : Option String := none
deriving Repr

structure CreateResult where
  orderId : Nat
  tradeNo : String
  isExisting : Bool
deriving DecidableEq, Repr

/-- `feeRate ? parseFloat((money * feeRate).toFixed(2)) : 0`. -/
def feeMoneyOf (money feeRate : ℚ) : ℚ :=
  if feeRate ≠ 0 then round2 (money * feeRate) else 0

/-- `feePayer === 'buyer' ? parseFloat((money + feeMoney).toFixed(2)) : money`. -/
def realMoneyOf (money feeMoney : ℚ) (feePayer : String) : ℚ :=
  if feePayer = "buyer" then round2 (money + feeMoney) else money

/-- The `WHERE merchant_id = ? AND out_trade_no = ? AND status = 0` filter. -/
def pendingMatch (m : Nat) (o : String) (r : OrderRow) : Bool :=
  r.merchant_id == m && r.out_trade_no == o && r.status == 0

/-- `ORDER BY id DESC LIMIT 1`: the matching row of largest `id`. -/
def latestBy : List OrderRow → Option OrderRow :=
  List.foldl (fun acc r =>
    match acc with
    | none => some r
    | some a => if a.id < r.id then some r else some a) none

def findExisting (db : List OrderRow) (m : Nat) (o : String) : Option OrderRow :=
  latestBy (db.filter (pendingMatch m o))

/-- `createOrder`: reuse the pending order with the same
(`merchant_id`, `out_trade_no`) when one exists — updating its channel, pay
type, urls, fee fields and cert_info in place — otherwise insert a new
pending row.  `nextId` is the auto-increment id an insert would receive. -/
def createOrder (db : List OrderRow) (nextId : Nat) (d : CreateData) :
    List OrderRow × CreateResult :=
  let feeMoney := feeMoneyOf d.money d.feeRate
  let realMoney := realMoneyOf d.money feeMoney d.feePayer
  let storedPayer := if d.feePayer = "" then "merchant" else d.feePayer
  match findExisting db d.merchantId d.outTradeNo with
  | some e =>
    (db.map fun r =>
      if r.id = e.id then
        { r with channel_id := d.channelId, pay_type := d.type,
                 notify_url := d.notifyUrl, return_url := d.returnUrl,
                 fee_money := feeMoney, real_money := realMoney,
                 fee_payer := storedPayer, cert_info := d.certInfo }
      else r,
     { orderId := e.id, tradeNo := e.trade_no, isExisting := true })
  | none =>
    (db ++ [{ id := nextId, merchant_id := d.merchantId,
              channel_id := d.channelId, trade_no := d.tradeNo,
              out_trade_no := d.outTradeNo, pay_type := d.type,
              name := d.name, money := d.money, real_money := realMoney,
              fee_money := feeMoney, fee_payer := storedPayer,
              client_ip := d.clientIp, notify_url := d.notifyUrl,
              return_url := d.returnUrl, status := 0,
              cert_info := d.certInfo }],
     { orderId := nextId, tradeNo := d.tradeNo, isExisting := false })

/-- The row `createOrder` inserts on its no-existing-order path. -/
def insertedRow (nextId : Nat) (d : CreateData) : OrderRow :=
  { id := nextId, merchant_id := d.merchantId, channel_id := d.channelId,
    trade_no := d.tradeNo, out_trade_no := d.outTradeNo, pay_type := d.type,
    name := d.name, money := d.money,
    real_money := realMoneyOf d.money (feeMoneyOf d.money d.feeRate)
      d.feePayer,
    fee_money := feeMoneyOf d.money d.feeRate,
    fee_payer := if d.feePayer = "" then "merchant" else d.feePayer,
    client_ip := d.clientIp, notify_url := d.notifyUrl,
    return_url := d.returnUrl, status := 0, cert_info := d.certInfo }

/-- The in-place update `createOrder` applies to a reused pending row. -/
def reusedRowUpdate (d : CreateData) (r : OrderRow) : OrderRow :=
  { r with channel_id := d.channelId, pay_type := d.type,
           notify_url := d.notifyUrl, return_url := d.returnUrl,
           fee_money := feeMoneyOf d.money d.feeRate,
           real_money := realMoneyOf d.money (feeMoneyOf d.money d.feeRate)
             d.feePayer,
           fee_payer := if d.feePayer = "" then "merchant" else d.feePayer,
           cert_info := d.certInfo }

/-!
## Channel eligibility by buyer minimum age

A channel's `config` JSON is modelled post-parse: `malformed` when
`JSON.parse` throws (the filter's `catch` keeps the channel), otherwise the
`params?.force_min_age` value as an optional string.
-/

inductive CfgParse where
  | malformed
  | parsed (forceMinAge : Option String)
deriving DecidableEq, Repr

structure Chan where
  id : Nat
  channel_name : String := ""
  plugin_name : String := ""
  pay_type : String := ""
  status : Nat := 1
  cfg : CfgParse := .parsed none
deriving DecidableEq, Repr

/-- The min-age filter body at the polling-group site of
`selectChannelFromGroup`: keep the channel when `force_min_age` is
null/undefined/empty (or the config fails to parse), otherwise require
`parseInt(force_min_age)` to be a number `≤` the merchant's min age. -/
def groupChannelEligible (config : CfgParse) (merchantMinAge : ℤ) : Bool :=
  match config with
  | .malformed => true
  | .parsed none => true
  | .parsed (some s) =>
    if s = "" then true
    else
      match parseIntJS s with
      | none => false
      | some a => decide (a ≤ merchantMinAge)

/-- The min-age filter body at the direct-channel-list site of
`selectChannelFromGroup` (textually identical to the polling-group one). -/
def directChannelEligible (config : CfgParse) (merchantMinAge : ℤ) : Bool :=
  match config with
  | .malformed => true
  | .parsed none => true
  | .parsed (some s) =>
    if s = "" then true
    else
      match parseIntJS s with
      | none => false
      | some a => decide (a ≤ merchantMinAge)

def filterGroupChannels (chs : List Chan) (minAge : ℤ) : List Chan :=
  chs.filter fun c => groupChannelEligible c.cfg minAge

def filterDirectChannels (chs : List Chan) (minAge : ℤ) : List Chan :=
  chs.filter fun c => directChannelEligible c.cfg minAge

/-- The eligibility rule exactly as the claim words it (for comparison with
the code's filter): retained iff no `force_min_age` is configured, **or the
value is unparsable**, or it is `≤` the requested min age. -/
def claimWordsEligible (config : CfgParse) (merchantMinAge : ℤ) : Bool :=
  match config with
  | .malformed => true
  | .parsed none => true
  | .parsed (some s) =>
    if s = "" then true
    else
      match parseIntJS s with
      | none => true
      | some a => decide (a ≤ merchantMinAge)

/-!
## The `dopay` channel phase

`POST /dopay` first re-reads the order and checks `status == 0`; a locked
order (`channel_id` set) reuses its channel with **no** write, an unlocked
one runs channel selection and persists the lock together with the resolved
fee fields.  Channel selection touches the database and a random source, so
its outcome is an environment input here.
-/

structure DopayEnv where
  channels : List Chan
  selected : Option Chan
  feeRate : ℚ := 0
  feePayer : String := "merchant"
deriving Repr

inductive DopayChannelResult where
  | err (msg : String)
  | ok (order : OrderRow) (channel : Chan)
deriving DecidableEq, Repr

/-- The order-status check and channel lock section of `POST /dopay`
(everything up to the plugin invocation). -/
def dopayChannelPhase (order : OrderRow) (env : DopayEnv)
    (payTypeParam : String) : DopayChannelResult :=
  if order.status ≠ 0 then .err "订单状态异常"
  else
    match order.channel_id with
    | some cid =>
      match env.channels.find? (fun c => c.id == cid) with
      | none => .err "支付通道已失效，请联系客服"
      | some ch => .ok order ch
    | none =>
      let finalPayType := if payTypeParam = "" then order.pay_type else payTypeParam
      if finalPayType = "" then .err "未选择支付方式"
      else
        match env.selected with
        | none => .err "支付通道不可用，请联系服务商"
        | some ch =>
          let feeMoney := feeMoneyOf order.money env.feeRate
          let realMoney := realMoneyOf order.money feeMoney env.feePayer
          .ok { order with channel_id := some ch.id, pay_type := finalPayType,
                           plugin_name := some ch.plugin_name,
                           fee_money := feeMoney, real_money := realMoney,
                           fee_payer := env.feePayer } ch

/-- The channel-lock update `dopay` persists on a not-yet-locked order. -/
def dopayLockedRow (order : OrderRow) (env : DopayEnv) (pt : String)
    (ch : Chan) : OrderRow :=
  { order with channel_id := some ch.id,
               pay_type := if pt = "" then order.pay_type else pt,
               plugin_name := some ch.plugin_name,
               fee_money := feeMoneyOf order.money env.feeRate,
               real_money := realMoneyOf order.money
                 (feeMoneyOf order.money env.feeRate) env.feePayer,
               fee_payer := env.feePayer }

/-!
## The `/create` endpoint and signature-scheme dispatch
-/

structure Merchant where
  user_id : Nat
  pid : String
  api_key : String
  rsa_public_key : Option String := none
  fee_payer : String := "merchant"
deriving DecidableEq, Repr

/-- `validateTimestamp`: `|now − parseInt(timestamp)| ≤ 300` seconds; a
non-numeric timestamp fails, as every NaN comparison is false. -/
def validateTimestamp (now : ℤ) (timestamp : String) : Bool :=
  match parseIntJS timestamp with
  | none => false
  | some t => decide ((now - t).natAbs ≤ 300)

/-- Modelled from the spec: `verifySignMD5` lives in utils/payment.js, which
is not among the provided sources; per §4.1 it recomputes the MD5 digest of
the canonical parameter string with the shared secret appended and compares
it with the submitted signature (the same construction as `verifySign`). -/
def verifySignMD5 (params : List (String × String)) (sign secret : String) :
    Bool :=
  md5Sign (canonicalString params ++ secret) == sign

/-- Which verification the handler runs for a request. -/
inductive VerifyPath where
  | rejectNoKey
  | useRSA (publicKey : String)
  | useMD5 (apiKey : String)
deriving DecidableEq, Repr

/-- `sign_type || (isV2 ? 'RSA' : 'MD5')` from the unified handlers: the
explicit `sign_type` wins; a timestamp-bearing (V2) request defaults to RSA,
a legacy one to MD5. -/
def effectiveSignType (sign_type timestamp : String) : String :=
  if sign_type ≠ "" then sign_type
  else if timestamp ≠ "" then "RSA" else "MD5"

/-- The signature-scheme dispatch of `handleSubmit` (also `handleMapi` and
`handleQuery`): an effective RSA scheme with no RSA public key on file is
rejected with the explicit error; otherwise the matching verifier runs. -/
def handleSubmitVerifyPath (sign_type timestamp : String)
    (rsaPublicKey : Option String) (apiKey : String) : VerifyPath :=
  if effectiveSignType sign_type timestamp = "RSA" then
    match rsaPublicKey with
    | none => .rejectNoKey
    | some k => .useRSA k
  else .useMD5 apiKey

/-- The signature-scheme dispatch of `router.all('/create')` (and
`/v2/query`): RSA when the merchant has a public key on file, otherwise a
silent fallback to MD5 with the merchant's `api_key` — `sign_type` is never
consulted and no missing-key error exists on this path. -/
def createVerifyPath (rsaPublicKey : Option String) (apiKey : String) :
    VerifyPath :=
  match rsaPublicKey with
  | some k => .useRSA k
  | none => .useMD5 apiKey

structure ChanLimits where
  id : Nat
  min_amount : Option ℚ := none
  max_amount : Option ℚ := none
deriving DecidableEq, Repr

/-- The request parameters of `/create` (required fields plus `return_url`;
the remaining optional fields play no role in the verified claims and are
taken absent).  An absent parameter is the empty string, which is what the
JavaScript truthiness tests check. -/
structure CreateParams where
  pid : String
  type : String
  out_trade_no : String
  notify_url : String
  return_url : String := ""
  name : String
  money : String
  sign : String
  timestamp : String
deriving DecidableEq, Repr

/-- Environment of one `/create` request: the results of the database
lookups, the RSA verification outcome (crypto not modelled), the resolved
fee rate, the orders table and the generated ids. -/
structure CreateEnv where
  now : ℤ
  merchant : Option Merchant := none
  domainValid : Bool := true
  rsaValid : Bool := false
  channel : Option ChanLimits := none
  feeRate : ℚ := 0
  db : List OrderRow := []
  nextId : Nat := 1
  tradeNo : String := ""
deriving Repr

structure CreateResponse where
  code : ℤ
  msg : String
deriving DecidableEq, Repr

/-- `router.all('/create')`: parameter presence, timestamp window, merchant
lookup, callback-domain check, signature verification (RSA when a key is on
file, MD5 fallback otherwise), channel resolution, amount limits, then
`createOrder`.  Returns the JSON `code`/`msg` and the resulting orders
table (response payload fields beyond `code`/`msg` are not modelled). -/
def createRoute (env : CreateEnv) (p : CreateParams) :
    CreateResponse × List OrderRow :=
  if p.pid = "" ∨ p.type = "" ∨ p.out_trade_no = "" ∨ p.notify_url = "" ∨
      p.name = "" ∨ p.money = "" ∨ p.sign = "" ∨ p.timestamp = "" then
    ({ code := 1001, msg := "缺少必要参数" }, env.db)
  else if ¬ validateTimestamp env.now p.timestamp then
    ({ code := 1002, msg := "时间戳已过期" }, env.db)
  else
    match env.merchant with
    | none => ({ code := 1003, msg := "商户不存在或已禁止" }, env.db)
    | some m =>
      if ¬ env.domainValid then
        ({ code := 1005, msg := "回调域名不在白名单中" }, env.db)
      else
        let signParams :=
          [("pid", p.pid), ("type", p.type), ("out_trade_no", p.out_trade_no),
           ("notify_url", p.notify_url), ("name", p.name), ("money", p.money),
           ("timestamp", p.timestamp)] ++
          (if p.return_url ≠ "" then [("return_url", p.return_url)] else [])
        let signValid :=
          match m.rsa_public_key with
          | some _ => env.rsaValid
          | none => verifySignMD5 signParams p.sign m.api_key
        if signValid = false then ({ code := 1004, msg := "签名验证失败" }, env.db)
        else
          match env.channel with
          | none => ({ code := 1005, msg := "支付通道不存在或已关闭" }, env.db)
          | some ch =>
            let mf := parseFloatJS p.money
            let minBad : Bool :=
              match ch.min_amount, mf with
              | some mn, some v => decide (mn ≠ 0) && decide (v < mn)
              | _, _ => false
            let maxBad : Bool :=
              match ch.max_amount, mf with
              | some mx, some v => decide (mx ≠ 0) && decide (mx < v)
              | _, _ => false
            if minBad then ({ code := 1006, msg := "支付金额过小" }, env.db)
            else if maxBad then ({ code := 1007, msg := "支付金额过大" }, env.db)
            else
              let od := createOrder env.db env.nextId
                { merchantId := m.user_id, channelId := some ch.id,
                  tradeNo := env.tradeNo, outTradeNo := p.out_trade_no,
                  type := p.type, name := p.name, money := mf.getD 0,
                  notifyUrl := p.notify_url, returnUrl := p.return_url,
                  feeRate := env.feeRate,
                  feePayer := if m.fee_payer = "" then "merchant"
                              else m.fee_payer }
              ({ code := 0, msg := "success" }, od.1)

/-!
## Callback / settlement pipeline
-/

structure PayState where
  orders : List OrderRow
  balance : ℚ
deriving DecidableEq, Repr

def findOrderById (db : List OrderRow) (oid : Nat) : Option OrderRow :=
  db.find? fun r => r.id == oid

def findOrderByTradeNo (db : List OrderRow) (tn : String) : Option OrderRow :=
  db.find? fun r => r.trade_no == tn

/-- `UPDATE orders SET ... WHERE id = ?`. -/
def setOrder (db : List OrderRow) (oid : Nat) (f : OrderRow → OrderRow) :
    List OrderRow :=
  db.map fun r => if r.id = oid then f r else r

/-- What a channel plugin's `notify`/`returnCallback` reports. -/
structure NotifyResult where
  success : Bool
  api_trade_no : Option String := none
  buyer : Option String := none
deriving DecidableEq, Repr

/-- `UPDATE orders SET status = 1, paid_at = NOW(), api_trade_no = ?,
buyer = ? ...` (the paid transition). -/
def paidUpdate (nres : NotifyResult) (r : OrderRow) : OrderRow :=
  { r with status := 1, paid_at := true,
           api_trade_no := nres.api_trade_no, buyer := nres.buyer }

/-- `UPDATE orders SET balance_added = 1 ...`. -/
def balanceAddedUpdate (r : OrderRow) : OrderRow :=
  { r with balance_added := true }

/-- `UPDATE orders SET notify_status = ?, notify_count = notify_count + 1,
notify_time = NOW() ...`. -/
def notifyBookkeepingUpdate (success : Bool) (r : OrderRow) : OrderRow :=
  { r with notify_status := if success then 1 else 2,
           notify_count := r.notify_count + 1 }

/-- `sendDownstreamNotify`: look up the merchant; when
`money − fee_money > 0`, run the settlement transaction — re-read
`balance_added` under `SELECT ... FOR UPDATE` and credit the merchant
balance once — then attempt the merchant-facing notification (its HTTP
outcome is the `notifySuccess` input) and record the attempt.  Returns the
new state and whether the notification was attempted. -/
def sendDownstreamNotify (st : PayState) (order : OrderRow)
    (merchantFound notifySuccess : Bool) : PayState × Bool :=
  if ¬ merchantFound then (st, false)
  else
    let settleAmount := order.money - order.fee_money
    let st1 :=
      if 0 < settleAmount then
        match findOrderById st.orders order.id with
        | some row =>
          if ¬ row.balance_added then
            { orders := setOrder st.orders order.id balanceAddedUpdate,
              balance := st.balance + settleAmount }
          else st
        | none => st
      else st
    if order.notify_url = "" then (st1, false)
    else
      let orders2 := setOrder st1.orders order.id
        (notifyBookkeepingUpdate notifySuccess)
      ({ st1 with orders := orders2 }, true)

/-- `router.all('/notify/:trade_no')`: resolve the order, fail closed when
it or its locked channel is missing, let the plugin verify the callback
(`nres`), and on success transition a still-pending order to paid and run
`sendDownstreamNotify`. -/
def processNotify (st : PayState) (tradeNo : String) (channelExists : Bool)
    (nres : NotifyResult) (merchantFound notifySuccess : Bool) : PayState :=
  match findOrderByTradeNo st.orders tradeNo with
  | none => st
  | some order =>
    match order.channel_id with
    | none => st
    | some _ =>
      if ¬ channelExists then st
      else if nres.success then
        if order.status = 0 then
          let orders1 := setOrder st.orders order.id (paidUpdate nres)
          let st1 : PayState := { st with orders := orders1 }
          match findOrderById orders1 order.id with
          | some updated =>
            (sendDownstreamNotify st1 updated merchantFound notifySuccess).1
          | none => st1
        else st
      else st

/-- `router.all('/return/:trade_no')`, state effects only: the same
pending-check, paid transition and `sendDownstreamNotify` as the notify
transport (the redirect/rendering behaviour has no state effect). -/
def processReturn (st : PayState) (tradeNo : String) (channelExists : Bool)
    (rres : NotifyResult) (merchantFound notifySuccess : Bool) : PayState :=
  match findOrderByTradeNo st.orders tradeNo with
  | none => st
  | some order =>
    match order.channel_id with
    | none => st
    | some _ =>
      if ¬ channelExists then st
      else if rres.success then
        if order.status = 0 then
          let orders1 := setOrder st.orders order.id (paidUpdate rres)
          let st1 : PayState := { st with orders := orders1 }
          match findOrderById orders1 order.id with
          | some updated =>
            (sendDownstreamNotify st1 updated merchantFound notifySuccess).1
          | none => st1
        else st
      else st

/-!
## Concrete instances used by counterexamples and witnesses
-/

def c2signParams : List (String × String) :=
  [("pid", "100000000001"), ("type", "alipay"), ("out_trade_no", "OT1"),
   ("notify_url", "https://shop.example.com/cb"), ("name", "test"),
   ("money", "10.00"), ("timestamp", "1000")]

def c2merchant : Merchant :=
  { user_id := 7, pid := "100000000001", api_key := "apikey" }

def c2env : CreateEnv :=
  { now := 1000, merchant := some c2merchant,
    channel := some { id := 3 }, tradeNo := "T1" }

def c2params : CreateParams :=
  { pid := "100000000001", type := "alipay", out_trade_no := "OT1",
    notify_url := "https://shop.example.com/cb", name := "test",
    money := "10.00", sign := createSign c2signParams "apikey",
    timestamp := "1000" }

def c4row : OrderRow :=
  { id := 1, merchant_id := 7, channel_id := some 5, trade_no := "T100",
    out_trade_no := "OT4", pay_type := "alipay", money := 10 }

def c4resubmit : CreateData :=
  { merchantId := 7, channelId := some 9, tradeNo := "T200",
    outTradeNo := "OT4", type := "wxpay", money := 10 }

def c4chan : Chan := { id := 5, plugin_name := "epay" }

def c4env : DopayEnv := { channels := [c4chan], selected := none }

def c9params : CreateParams :=
  { pid := "100000000001", type := "alipay", out_trade_no := "OT9",
    notify_url := "https://shop.example.com/cb", name := "t",
    money := "10.00", sign := "x", timestamp := "200" }

def c9env : CreateEnv := { now := 600 }

def c7data : CreateData :=
  { merchantId := 7, tradeNo := "T7", outTradeNo := "OT7", type := "alipay",
    money := 100, feeRate := 3 / 100, feePayer := "merchant" }

def c3d1 : CreateData :=
  { merchantId := 7, channelId := some 5, tradeNo := "T31",
    outTradeNo := "OT3", type := "alipay", money := 10 }

def c3d2 : CreateData :=
  { merchantId := 7, channelId := some 9, tradeNo := "T32",
    outTradeNo := "OT3", type := "wxpay", money := 10 }

def c10order : OrderRow :=
  { id := 1, merchant_id := 7, channel_id := some 5, trade_no := "TA",
    out_trade_no := "OTA", pay_type := "alipay", money := 3, fee_money := 3,
    notify_url := "https://m.example.com/cb", status := 1 }

def c10st : PayState := { orders := [c10order], balance := 50 }

def c1order : OrderRow :=
  { id := 1, merchant_id := 7, channel_id := some 5, trade_no := "TB",
    out_trade_no := "OTB", pay_type := "alipay", money := 100, fee_money := 3,
    notify_url := "https://m.example.com/cb", status := 0 }

def c1st : PayState := { orders := [c1order], balance := 50 }

def c1nres : NotifyResult :=
  { success := true, api_trade_no := some "UP1", buyer := some "b" }

/-!
## Theorems
-/

theorem round2_int_div_100 (k : ℤ) : round2 ((k : ℚ) / 100) = (k : ℚ) / 100 := by
  unfold round2
  rw [div_mul_cancel₀ _ (by norm_num : (100 : ℚ) ≠ 0)]
  rw [Int.floor_int_add]
  norm_num

/-- C5 counterexample: rate normalization is not idempotent on every raw
value.  At the raw rate 100 (i.e. 100%), `normalize(100) = 1`, but
normalizing again divides once more: `normalize(1) = 0.01 ≠ 1`. -/
theorem normalizeRate_not_idempotent_at_100 :
    normalizeRateToDecimal (some (normalizeRateToDecimal (some 100))) ≠
      normalizeRateToDecimal (some 100) := by
  norm_num [normalizeRateToDecimal]

/-- C5 (amended): rate normalization is idempotent on every raw rate below
100 (including non-numeric input, which normalizes to 0); in particular
`normalize(6) = 0.06 = normalize(0.06)`.  For raw values ≥ 100 the
normalized result is itself ≥ 1 and gets divided by 100 again. -/
theorem normalizeRate_idempotent_below_100 (r : Option ℚ)
    (h : ∀ v, r = some v → v < 100) :
    normalizeRateToDecimal (some (normalizeRateToDecimal r)) =
        normalizeRateToDecimal r ∧
      normalizeRateToDecimal (some 6) = 6 / 100 ∧
      normalizeRateToDecimal (some (6 / 100)) = 6 / 100 := by
  refine ⟨?_, by norm_num [normalizeRateToDecimal], by norm_num [normalizeRateToDecimal]⟩
  match r with
  | none => norm_num [normalizeRateToDecimal]
  | some v =>
    have hv : v < 100 := h v rfl
    by_cases h1 : 1 ≤ v
    · have hlt : v / 100 < 1 := (div_lt_one (by norm_num)).mpr hv
      simp [normalizeRateToDecimal, h1, not_le.mpr hlt]
    · simp [normalizeRateToDecimal, h1]

theorem normalizeRate_idempotent_below_100_witness :
    (∀ v : ℚ, some (6 : ℚ) = some v → v < 100) ∧
      (normalizeRateToDecimal (some (normalizeRateToDecimal (some 6))) =
          normalizeRateToDecimal (some 6) ∧
        normalizeRateToDecimal (some 6) = 6 / 100 ∧
        normalizeRateToDecimal (some (6 / 100)) = 6 / 100) := by
  have h : ∀ v : ℚ, some (6 : ℚ) = some v → v < 100 := by
    intro v hv
    obtain rfl : (6 : ℚ) = v := Option.some.inj hv
    norm_num
  exact ⟨h, normalizeRate_idempotent_below_100 (some 6) h⟩

/-- C6: MD5 signature round trip.  Verifying the signature produced by
signing a parameter set with a secret always succeeds; any signature string
other than the correct one is rejected (so altering any single character of
the signature fails); and any parameter change whose canonical string hashes
to a different digest is rejected (so altering a character of the canonical
string fails whenever it changes the MD5 digest — which is what the
exact-match comparison in `verifySign` checks). -/
theorem verifySign_round_trip (P : List (String × String)) (K : String) :
    verifySign P K (createSign P K) = true ∧
      (∀ s, s ≠ createSign P K → verifySign P K s = false) ∧
      (∀ Q, md5Sign (canonicalString Q ++ K) ≠ md5Sign (canonicalString P ++ K) →
        verifySign Q K (createSign P K) = false) := by
  refine ⟨by simp [verifySign, createSign], ?_, ?_⟩
  · intro s hs
    simpa [verifySign, createSign] using Ne.symm hs
  · intro Q hq
    simpa [verifySign, createSign] using hq

/-- C2 counterexample: a timestamp-bearing `/create` request — whose
effective signature scheme under the protocol-version policy is RSA — from
a merchant with **no** RSA public key on file is not rejected: `/create`
silently falls back to MD5 verification with the merchant's `api_key`,
accepts the MD5-signed request and creates the order. -/
theorem create_md5_fallback_counterexample :
    c2merchant.rsa_public_key = none ∧
      c2params.timestamp ≠ "" ∧
      createVerifyPath c2merchant.rsa_public_key c2merchant.api_key =
        .useMD5 "apikey" ∧
      (createRoute c2env c2params).1 = { code := 0, msg := "success" } ∧
      (createRoute c2env c2params).2.length = 1 := by
  exact ⟨rfl, by decide, rfl,
    by set_option maxRecDepth 100000 in decide,
    by set_option maxRecDepth 100000 in decide⟩

/-- C2 (amended): in the unified handlers (`handleSubmit`, `handleMapi`,
`handleQuery`), an effective signature scheme of RSA with no RSA public key
on file is rejected with the explicit missing-key error and never falls
back to MD5 verification; with a key on file, RSA verification runs.  The
`/create` and `/v2/query` endpoints, however, choose the scheme by key
presence and silently fall back to MD5 with the merchant's `api_key` when
no RSA key is on file (see the counterexample). -/
theorem handleSubmit_rsa_requires_key (sign_type timestamp : String)
    (rsaPublicKey : Option String) (apiKey : String)
    (h : effectiveSignType sign_type timestamp = "RSA") :
    handleSubmitVerifyPath sign_type timestamp rsaPublicKey apiKey =
        (match rsaPublicKey with
         | none => .rejectNoKey
         | some k => .useRSA k) ∧
      ∀ k, handleSubmitVerifyPath sign_type timestamp rsaPublicKey apiKey ≠
        .useMD5 k := by
  constructor
  · simp [handleSubmitVerifyPath, h]
  · intro k
    cases rsaPublicKey <;> simp [handleSubmitVerifyPath, h]

theorem handleSubmit_rsa_requires_key_witness :
    effectiveSignType "" "1000" = "RSA" ∧
      (handleSubmitVerifyPath "" "1000" none "apikey" =
          (match (none : Option String) with
           | none => VerifyPath.rejectNoKey
           | some k => VerifyPath.useRSA k) ∧
        ∀ k, handleSubmitVerifyPath "" "1000" none "apikey" ≠
          VerifyPath.useMD5 k) :=
  ⟨by decide, handleSubmit_rsa_requires_key "" "1000" none "apikey" (by decide)⟩

/-- C4 counterexample: resubmitting the same (`merchant_id`,
`out_trade_no`) while the order is still pending *does* replace the locked
channel: the pending row locked to channel 5 is updated in place to channel
9 by `createOrder`. -/
theorem channel_lock_resubmission_counterexample :
    c4row.channel_id = some 5 ∧ c4row.status = 0 ∧
      ((createOrder [c4row] 2 c4resubmit).1.map fun r => r.channel_id) =
        [some 9] := by
  refine ⟨rfl, rfl, ?_⟩
  simp [createOrder, findExisting, latestBy, pendingMatch, c4row, c4resubmit]

/-- C4 (amended): a later dispatch of an order whose channel is locked
(`channel_id` set) reuses the locked channel and performs no channel write —
for any requested pay type, any selection outcome and any fee
configuration, `dopay` returns the order row unchanged together with the
locked channel, so the dispatch path never changes a locked order's
`channel_id`.  (Resubmission through `createOrder` does update the pending
row, including its `channel_id` — see the counterexample.) -/
theorem dopay_locked_channel_immutable (order : OrderRow) (env : DopayEnv)
    (pt : String) (cid : Nat) (ch : Chan)
    (h0 : order.status = 0) (hc : order.channel_id = some cid)
    (hfind : env.channels.find? (fun c => c.id == cid) = some ch) :
    dopayChannelPhase order env pt = .ok order ch ∧
      ∀ o' c', dopayChannelPhase order env pt = .ok o' c' →
        o'.channel_id = some cid := by
  have h1 : dopayChannelPhase order env pt = .ok order ch := by
    unfold dopayChannelPhase
    rw [if_neg (by simp [h0]), hc]
    simp [hfind]
  refine ⟨h1, fun o' c' h2 => ?_⟩
  rw [h1] at h2
  cases h2
  exact hc

theorem dopay_locked_channel_immutable_witness :
    c4row.status = 0 ∧ c4row.channel_id = some 5 ∧
      c4env.channels.find? (fun c => c.id == 5) = some c4chan ∧
      (dopayChannelPhase c4row c4env "wxpay" = .ok c4row c4chan ∧
        ∀ o' c', dopayChannelPhase c4row c4env "wxpay" = .ok o' c' →
          o'.channel_id = some 5) :=
  ⟨rfl, rfl, by decide,
    dopay_locked_channel_immutable c4row c4env "wxpay" 5 c4chan rfl rfl
      (by decide)⟩

/-- C8 counterexample: a channel whose configured `force_min_age` does not
parse as an integer ("abc") is **excluded** by both filter sites, while the
claim's wording ("no `force_min_age` configured (or the value is
unparsable)") would retain it. -/
theorem minAge_filter_unparsable_counterexample :
    directChannelEligible (.parsed (some "abc")) 18 = false ∧
      groupChannelEligible (.parsed (some "abc")) 18 = false ∧
      claimWordsEligible (.parsed (some "abc")) 18 = true := by decide

/-- C8 (amended): the polling-group filter and the direct filter are the
same predicate (and filter channel lists identically); a channel is
retained iff its config JSON is malformed, or `force_min_age` is absent or
empty, or it parses to an integer ≤ the requested min age — a configured
non-empty `force_min_age` that fails to parse excludes the channel.  In
particular `force_min_age = 18` is excluded at `min_age = 16`, retained at
`min_age = 18`, and a channel with no `force_min_age` is always retained. -/
theorem minAge_filter_characterization :
    (∀ cfg minAge, groupChannelEligible cfg minAge =
        directChannelEligible cfg minAge) ∧
      (∀ chs minAge, filterGroupChannels chs minAge =
        filterDirectChannels chs minAge) ∧
      (∀ cfg minAge, directChannelEligible cfg minAge = true ↔
        (cfg = .malformed ∨ cfg = .parsed none ∨ cfg = .parsed (some "") ∨
          ∃ s a, cfg = .parsed (some s) ∧ s ≠ "" ∧ parseIntJS s = some a ∧
            a ≤ minAge)) ∧
      (∀ s minAge, s ≠ "" → parseIntJS s = none →
        directChannelEligible (.parsed (some s)) minAge = false) ∧
      directChannelEligible (.parsed (some "18")) 16 = false ∧
      directChannelEligible (.parsed (some "18")) 18 = true ∧
      (∀ minAge, directChannelEligible (.parsed none) minAge = true) := by
  refine ⟨fun cfg minAge => rfl, fun chs minAge => rfl, ?_, ?_, by decide,
    by decide, fun minAge => rfl⟩
  · intro cfg minAge
    match cfg with
    | .malformed => simp [directChannelEligible]
    | .parsed none => simp [directChannelEligible]
    | .parsed (some s) =>
      by_cases hs : s = ""
      · subst hs
        simp [directChannelEligible]
      · rcases hp : parseIntJS s with _ | a
        · simp [directChannelEligible, hs, hp]
        · simp only [directChannelEligible, if_neg hs, hp, decide_eq_true_eq]
          constructor
          · intro ha
            exact Or.inr (Or.inr (Or.inr ⟨s, a, rfl, hs, hp, ha⟩))
          · rintro (h | h | h | ⟨s', a', hss, hs', hpa, ha⟩)
            · exact absurd h (by simp)
            · exact absurd h (by simp)
            · exact absurd (by simpa using h) hs
            · obtain rfl : s = s' := by simpa using hss
              rw [hp] at hpa
              obtain rfl : a = a' := by simpa using hpa
              exact ha
  · intro s minAge hs hp
    simp [directChannelEligible, hs, hp]

/-- C9: a timestamp-bearing `/create` request whose timestamp differs from
the current time by more than 300 seconds is rejected with the
timestamp-expired error before the signature check, channel resolution and
order creation — the orders table is returned unchanged — while a request
whose timestamp is within 300 seconds passes this check (no later stage
produces the timestamp-expired code). -/
theorem create_timestamp_window (env : CreateEnv) (p : CreateParams) (t : ℤ)
    (hreq : p.pid ≠ "" ∧ p.type ≠ "" ∧ p.out_trade_no ≠ "" ∧
      p.notify_url ≠ "" ∧ p.name ≠ "" ∧ p.money ≠ "" ∧ p.sign ≠ "" ∧
      p.timestamp ≠ "")
    (ht : parseIntJS p.timestamp = some t) :
    (300 < (env.now - t).natAbs →
      createRoute env p = ({ code := 1002, msg := "时间戳已过期" }, env.db)) ∧
      ((env.now - t).natAbs ≤ 300 → (createRoute env p).1.code ≠ 1002) := by
  obtain ⟨now, merch, dom, rsa, chan, fee, db, nid, tn⟩ := env
  obtain ⟨h1, h2, h3, h4, h5, h6, h7, h8⟩ := hreq
  have hcond : ¬ (p.pid = "" ∨ p.type = "" ∨ p.out_trade_no = "" ∨
      p.notify_url = "" ∨ p.name = "" ∨ p.money = "" ∨ p.sign = "" ∨
      p.timestamp = "") := by
    simp [h1, h2, h3, h4, h5, h6, h7, h8]
  constructor
  · intro habs
    have hval : validateTimestamp now p.timestamp = false := by
      unfold validateTimestamp
      rw [ht]
      simpa using habs
    unfold createRoute
    rw [if_neg hcond, if_pos (by simp [hval])]
  · intro hle
    have hval : validateTimestamp now p.timestamp = true := by
      unfold validateTimestamp
      rw [ht]
      simpa using hle
    unfold createRoute
    rw [if_neg hcond, if_neg (by simp [hval])]
    cases merch with
    | none => norm_num
    | some m =>
      dsimp only
      repeat' split
      all_goals norm_num

theorem create_timestamp_window_witness :
    (300 < ((600 : ℤ) - 200).natAbs ∧
      createRoute c9env c9params = ({ code := 1002, msg := "时间戳已过期" }, [])) ∧
      ((600 : ℤ) - 550).natAbs ≤ 300 ∧
      (createRoute { c9env with now := 600 }
        { c9params with timestamp := "550" }).1.code ≠ 1002 := by
  have hreq : c9params.pid ≠ "" ∧ c9params.type ≠ "" ∧
      c9params.out_trade_no ≠ "" ∧ c9params.notify_url ≠ "" ∧
      c9params.name ≠ "" ∧ c9params.money ≠ "" ∧ c9params.sign ≠ "" ∧
      c9params.timestamp ≠ "" := by decide
  refine ⟨⟨by decide, ?_⟩, by decide, ?_⟩
  · exact (create_timestamp_window c9env c9params 200 hreq (by decide)).1
      (by decide)
  · exact (create_timestamp_window { c9env with now := 600 }
      { c9params with timestamp := "550" } 550 (by decide) (by decide)).2
      (by decide)

theorem round2_zero : round2 0 = 0 := by
  unfold round2
  norm_num

theorem feeMoneyOf_eq_round2 (money rate : ℚ) :
    feeMoneyOf money rate = round2 (money * rate) := by
  unfold feeMoneyOf
  split
  · rfl
  · rename_i h
    rw [not_ne_iff.mp h, mul_zero, round2_zero]

theorem round2_exists_int (q : ℚ) : ∃ j : ℤ, round2 q = (j : ℚ) / 100 :=
  ⟨⌊q * 100 + 1/2⌋, rfl⟩

theorem realMoneyOf_char (money fee : ℚ) (payer : String) (k j : ℤ)
    (hm : money = (k : ℚ) / 100) (hf : fee = (j : ℚ) / 100) :
    realMoneyOf money fee payer =
      if payer = "buyer" then money + fee else money := by
  unfold realMoneyOf
  split
  · have hsum : money + fee = ((k + j : ℤ) : ℚ) / 100 := by
      rw [hm, hf]
      push_cast
      ring
    rw [hsum, round2_int_div_100]
  · rfl

/-- C7: for every created order (`createOrder` insert path) and every
dispatched order (`dopay` channel-lock path), with a 2-decimal requested
amount: `fee_money` is `money * rate` rounded to 2 decimals (0 when the
rate is zero), and `real_money` is `money + fee_money` when the fee payer
is the buyer, else exactly `money`. -/
theorem order_fee_computation :
    (∀ (db : List OrderRow) (n : Nat) (d : CreateData) (k : ℤ),
      d.money = (k : ℚ) / 100 →
      findExisting db d.merchantId d.outTradeNo = none →
      ∃ row, (createOrder db n d).1 = db ++ [row] ∧
        row.fee_money = round2 (d.money * d.feeRate) ∧
        (d.feeRate = 0 → row.fee_money = 0) ∧
        row.real_money =
          (if d.feePayer = "buyer" then d.money + row.fee_money
           else d.money)) ∧
      (∀ (order : OrderRow) (env : DopayEnv) (pt : String) (ch : Chan)
        (k : ℤ),
        order.money = (k : ℚ) / 100 →
        order.status = 0 → order.channel_id = none →
        env.selected = some ch →
        (if pt = "" then order.pay_type else pt) ≠ "" →
        ∃ o', dopayChannelPhase order env pt = .ok o' ch ∧
          o'.fee_money = round2 (order.money * env.feeRate) ∧
          (env.feeRate = 0 → o'.fee_money = 0) ∧
          o'.real_money =
            (if env.feePayer = "buyer" then order.money + o'.fee_money
             else order.money)) := by
  constructor
  · intro db n d k hk hnone
    refine ⟨insertedRow n d, ?_, ?_, ?_, ?_⟩
    · unfold createOrder
      rw [hnone]
      rfl
    · exact feeMoneyOf_eq_round2 d.money d.feeRate
    · intro h0
      simp [insertedRow, feeMoneyOf, h0]
    · show realMoneyOf d.money (feeMoneyOf d.money d.feeRate) d.feePayer = _
      obtain ⟨j, hj⟩ : ∃ j : ℤ, feeMoneyOf d.money d.feeRate = (j : ℚ) / 100 := by
        unfold feeMoneyOf
        split
        · exact round2_exists_int _
        · exact ⟨0, by norm_num⟩
      exact realMoneyOf_char d.money _ d.feePayer k j hk hj
  · intro order env pt ch k hk h0 hcnone hsel hpt
    refine ⟨dopayLockedRow order env pt ch, ?_, ?_, ?_, ?_⟩
    · unfold dopayChannelPhase
      rw [if_neg (by simp [h0]), hcnone]
      dsimp only
      rw [if_neg hpt, hsel]
      rfl
    · exact feeMoneyOf_eq_round2 order.money env.feeRate
    · intro hz
      simp [dopayLockedRow, feeMoneyOf, hz]
    · show realMoneyOf order.money (feeMoneyOf order.money env.feeRate)
        env.feePayer = _
      obtain ⟨j, hj⟩ : ∃ j : ℤ,
          feeMoneyOf order.money env.feeRate = (j : ℚ) / 100 := by
        unfold feeMoneyOf
        split
        · exact round2_exists_int _
        · exact ⟨0, by norm_num⟩
      exact realMoneyOf_char order.money _ env.feePayer k j hk hj

theorem order_fee_computation_witness :
    (c7data.money = ((10000 : ℤ) : ℚ) / 100 ∧
      findExisting [] c7data.merchantId c7data.outTradeNo = none) ∧
      (∃ row, (createOrder [] 1 c7data).1 = [] ++ [row] ∧
        row.fee_money = round2 (c7data.money * c7data.feeRate) ∧
        (c7data.feeRate = 0 → row.fee_money = 0) ∧
        row.real_money =
          (if c7data.feePayer = "buyer" then c7data.money + row.fee_money
           else c7data.money)) ∧
      feeMoneyOf 100 (3 / 100) = 3 ∧
      realMoneyOf 100 3 "merchant" = 100 := by
  refine ⟨⟨by norm_num [c7data], rfl⟩,
    order_fee_computation.1 [] 1 c7data 10000 (by norm_num [c7data]) rfl,
    ?_, rfl⟩
  unfold feeMoneyOf round2
  norm_num

theorem pendingMatch_iff (m : Nat) (o : String) (r : OrderRow) :
    pendingMatch m o r = true ↔
      (r.merchant_id = m ∧ r.out_trade_no = o ∧ r.status = 0) := by
  simp [pendingMatch, and_assoc]

theorem filter_pendingMatch_nil (db : List OrderRow) (m : Nat) (o : String)
    (h : ∀ r ∈ db, ¬(r.merchant_id = m ∧ r.out_trade_no = o ∧ r.status = 0)) :
    db.filter (pendingMatch m o) = [] := by
  rw [List.filter_eq_nil_iff]
  exact fun r hr hp => h r hr ((pendingMatch_iff m o r).mp hp)

theorem findExisting_none (db : List OrderRow) (m : Nat) (o : String)
    (h : ∀ r ∈ db, ¬(r.merchant_id = m ∧ r.out_trade_no = o ∧ r.status = 0)) :
    findExisting db m o = none := by
  unfold findExisting
  rw [filter_pendingMatch_nil db m o h]
  rfl

theorem createOrder_insert (db : List OrderRow) (n : Nat) (d : CreateData)
    (hfe : findExisting db d.merchantId d.outTradeNo = none) :
    createOrder db n d = (db ++ [insertedRow n d],
      { orderId := n, tradeNo := d.tradeNo, isExisting := false }) := by
  unfold createOrder
  rw [hfe]
  rfl

theorem createOrder_reuse (db : List OrderRow) (n : Nat) (d : CreateData)
    (e : OrderRow)
    (hfe : findExisting db d.merchantId d.outTradeNo = some e) :
    createOrder db n d = (db.map fun r =>
        if r.id = e.id then reusedRowUpdate d r else r,
      { orderId := e.id, tradeNo := e.trade_no, isExisting := true }) := by
  unfold createOrder
  rw [hfe]
  rfl

theorem findExisting_append_single (db : List OrderRow) (row : OrderRow)
    (m : Nat) (o : String)
    (hnil : db.filter (pendingMatch m o) = [])
    (hrow : pendingMatch m o row = true) :
    findExisting (db ++ [row]) m o = some row := by
  unfold findExisting
  rw [List.filter_append, hnil, List.nil_append]
  simp [List.filter, hrow, latestBy]

theorem findOrderById_map_append (db : List OrderRow) (row : OrderRow)
    (f : OrderRow → OrderRow) (i : Nat)
    (hfresh : ∀ r ∈ db, r.id ≠ i) (hrow : row.id = i)
    (hfi : (f row).id = i) :
    findOrderById
      ((db ++ [row]).map fun r => if r.id = row.id then f r else r) i =
      some (f row) := by
  induction db with
  | nil =>
    simp [findOrderById, List.find?, hfi]
  | cons r rest ih =>
    have hne : r.id ≠ i := hfresh r (by simp)
    have hnr : ¬ r.id = row.id := by
      rw [hrow]
      exact hne
    simp only [List.cons_append, List.map_cons, findOrderById]
    rw [if_neg hnr, List.find?_cons_of_neg _ (by simp [hne])]
    exact ih fun x hx => hfresh x (by simp [hx])

/-- C3: submitting a second payment request for the same
(`merchant_id`, `out_trade_no`) while a pending (`status = 0`) order for
that pair exists does not insert a second row: the first submission inserts
one row, the second leaves the table size unchanged, reports
`isExisting = true`, returns the same `trade_no` as the first, and updates
the existing row's channel and pay type in place. -/
theorem createOrder_idempotent_resubmission
    (db : List OrderRow) (n1 n2 : Nat) (d1 d2 : CreateData)
    (hm : d2.merchantId = d1.merchantId)
    (ho : d2.outTradeNo = d1.outTradeNo)
    (hnone : ∀ r ∈ db, ¬(r.merchant_id = d1.merchantId ∧
      r.out_trade_no = d1.outTradeNo ∧ r.status = 0))
    (hfresh : ∀ r ∈ db, r.id ≠ n1) :
    (createOrder db n1 d1).2.isExisting = false ∧
      (createOrder db n1 d1).1.length = db.length + 1 ∧
      (createOrder (createOrder db n1 d1).1 n2 d2).1.length =
        (createOrder db n1 d1).1.length ∧
      (createOrder (createOrder db n1 d1).1 n2 d2).2.isExisting = true ∧
      (createOrder (createOrder db n1 d1).1 n2 d2).2.tradeNo =
        (createOrder db n1 d1).2.tradeNo ∧
      (findOrderById (createOrder (createOrder db n1 d1).1 n2 d2).1 n1).map
          (fun r => (r.channel_id, r.pay_type, r.status)) =
        some (d2.channelId, d2.type, 0) := by
  have hfe1 : findExisting db d1.merchantId d1.outTradeNo = none :=
    findExisting_none db _ _ hnone
  have h1 := createOrder_insert db n1 d1 hfe1
  have hrowmatch :
      pendingMatch d2.merchantId d2.outTradeNo (insertedRow n1 d1) = true := by
    rw [pendingMatch_iff]
    exact ⟨by simp [insertedRow, hm], by simp [insertedRow, ho],
      by simp [insertedRow]⟩
  have hnil : db.filter (pendingMatch d2.merchantId d2.outTradeNo) = [] := by
    apply filter_pendingMatch_nil
    intro r hr
    rw [hm, ho]
    exact hnone r hr
  have hfe2 : findExisting (db ++ [insertedRow n1 d1]) d2.merchantId
      d2.outTradeNo = some (insertedRow n1 d1) :=
    findExisting_append_single db _ _ _ hnil hrowmatch
  have h2 := createOrder_reuse (db ++ [insertedRow n1 d1]) n2 d2 _ hfe2
  rw [h1]
  dsimp only
  rw [h2]
  dsimp only
  refine ⟨rfl, by simp, by simp, rfl, rfl, ?_⟩
  rw [findOrderById_map_append db (insertedRow n1 d1) (reusedRowUpdate d2) n1
    hfresh (by simp [insertedRow]) (by simp [reusedRowUpdate, insertedRow])]
  simp [reusedRowUpdate, insertedRow]

theorem createOrder_idempotent_resubmission_witness :
    (c3d2.merchantId = c3d1.merchantId ∧
      c3d2.outTradeNo = c3d1.outTradeNo) ∧
      ((createOrder [] 1 c3d1).2.isExisting = false ∧
        (createOrder [] 1 c3d1).1.length = ([] : List OrderRow).length + 1 ∧
        (createOrder (createOrder [] 1 c3d1).1 2 c3d2).1.length =
          (createOrder [] 1 c3d1).1.length ∧
        (createOrder (createOrder [] 1 c3d1).1 2 c3d2).2.isExisting = true ∧
        (createOrder (createOrder [] 1 c3d1).1 2 c3d2).2.tradeNo =
          (createOrder [] 1 c3d1).2.tradeNo ∧
        (findOrderById (createOrder (createOrder [] 1 c3d1).1 2 c3d2).1 1).map
            (fun r => (r.channel_id, r.pay_type, r.status)) =
          some (c3d2.channelId, c3d2.type, 0)) :=
  ⟨⟨rfl, rfl⟩, createOrder_idempotent_resubmission [] 1 2 c3d1 c3d2 rfl rfl
    (by simp) (by simp)⟩

@[simp] theorem paidUpdate_id (n : NotifyResult) (r : OrderRow) :
    (paidUpdate n r).id = r.id := rfl

@[simp] theorem paidUpdate_trade_no (n : NotifyResult) (r : OrderRow) :
    (paidUpdate n r).trade_no = r.trade_no := rfl

@[simp] theorem paidUpdate_channel_id (n : NotifyResult) (r : OrderRow) :
    (paidUpdate n r).channel_id = r.channel_id := rfl

@[simp] theorem paidUpdate_money (n : NotifyResult) (r : OrderRow) :
    (paidUpdate n r).money = r.money := rfl

@[simp] theorem paidUpdate_fee_money (n : NotifyResult) (r : OrderRow) :
    (paidUpdate n r).fee_money = r.fee_money := rfl

@[simp] theorem paidUpdate_balance_added (n : NotifyResult) (r : OrderRow) :
    (paidUpdate n r).balance_added = r.balance_added := rfl

@[simp] theorem paidUpdate_notify_url (n : NotifyResult) (r : OrderRow) :
    (paidUpdate n r).notify_url = r.notify_url := rfl

@[simp] theorem paidUpdate_status (n : NotifyResult) (r : OrderRow) :
    (paidUpdate n r).status = 1 := rfl

@[simp] theorem balanceAddedUpdate_id (r : OrderRow) :
    (balanceAddedUpdate r).id = r.id := rfl

@[simp] theorem balanceAddedUpdate_trade_no (r : OrderRow) :
    (balanceAddedUpdate r).trade_no = r.trade_no := rfl

@[simp] theorem balanceAddedUpdate_channel_id (r : OrderRow) :
    (balanceAddedUpdate r).channel_id = r.channel_id := rfl

@[simp] theorem balanceAddedUpdate_status (r : OrderRow) :
    (balanceAddedUpdate r).status = r.status := rfl

@[simp] theorem balanceAddedUpdate_notify_url (r : OrderRow) :
    (balanceAddedUpdate r).notify_url = r.notify_url := rfl

@[simp] theorem balanceAddedUpdate_balance_added (r : OrderRow) :
    (balanceAddedUpdate r).balance_added = true := rfl

@[simp] theorem notifyBookkeepingUpdate_id (b : Bool) (r : OrderRow) :
    (notifyBookkeepingUpdate b r).id = r.id := rfl

@[simp] theorem notifyBookkeepingUpdate_trade_no (b : Bool) (r : OrderRow) :
    (notifyBookkeepingUpdate b r).trade_no = r.trade_no := rfl

@[simp] theorem notifyBookkeepingUpdate_channel_id (b : Bool) (r : OrderRow) :
    (notifyBookkeepingUpdate b r).channel_id = r.channel_id := rfl

@[simp] theorem notifyBookkeepingUpdate_status (b : Bool) (r : OrderRow) :
    (notifyBookkeepingUpdate b r).status = r.status := rfl

@[simp] theorem notifyBookkeepingUpdate_balance_added (b : Bool)
    (r : OrderRow) :
    (notifyBookkeepingUpdate b r).balance_added = r.balance_added := rfl

theorem find?_setOrder_of_uniq (l : List OrderRow) (o : OrderRow)
    (p : OrderRow → Bool) (f : OrderRow → OrderRow) (i : Nat)
    (hfind : l.find? p = some o) (hio : o.id = i)
    (huniq : ∀ r ∈ l, r.id = i → r = o) (hp : p (f o) = true) :
    (setOrder l i f).find? p = some (f o) := by
  induction l with
  | nil => simp at hfind
  | cons r rest ih =>
    cases hpr : p r with
    | true =>
      rw [List.find?_cons_of_pos _ hpr] at hfind
      obtain rfl : r = o := Option.some.inj hfind
      simp only [setOrder, List.map_cons]
      rw [if_pos hio]
      exact List.find?_cons_of_pos _ hp
    | false =>
      rw [List.find?_cons_of_neg _ (by simp [hpr])] at hfind
      have hri : r.id ≠ i := by
        intro hri
        have hro : r = o := huniq r (by simp) hri
        have hpo : p o = true := List.find?_some hfind
        rw [hro, hpo] at hpr
        cases hpr
      simp only [setOrder, List.map_cons]
      rw [if_neg hri, List.find?_cons_of_neg _ (by simp [hpr])]
      exact ih hfind fun x hx hxi => huniq x (by simp [hx]) hxi

theorem uniq_setOrder (l : List OrderRow) (o : OrderRow)
    (f : OrderRow → OrderRow) (i : Nat) (hio : o.id = i)
    (huniq : ∀ r ∈ l, r.id = i → r = o) :
    ∀ r ∈ setOrder l i f, r.id = i → r = f o := by
  intro r hr hri
  simp only [setOrder, List.mem_map] at hr
  obtain ⟨x, hx, rfl⟩ := hr
  by_cases h : x.id = i
  · rw [huniq x hx h, if_pos hio]
  · rw [if_neg h] at hri ⊢
    exact absurd hri h

theorem findOrderById_of_uniq (l : List OrderRow) (o : OrderRow)
    (ho : o ∈ l) (huniq : ∀ r ∈ l, r.id = o.id → r = o) :
    findOrderById l o.id = some o := by
  induction l with
  | nil => simp at ho
  | cons r rest ih =>
    by_cases h : r.id = o.id
    · rw [huniq r (by simp) h]
      unfold findOrderById
      exact List.find?_cons_of_pos _ (by simp)
    · rcases List.mem_cons.mp ho with rfl | hmem
      · exact absurd rfl h
      · unfold findOrderById
        rw [List.find?_cons_of_neg _ (by simp [h])]
        exact ih hmem fun x hx hxi => huniq x (by simp [hx]) hxi

/-- A state whose order for `trade_no` is already paid (`status = 1`) is a
fixed point of the notify transport: any further delivery, with any
verification outcome, changes nothing. -/
theorem delivered_state_fixed (st : PayState) (tn : String) (row : OrderRow)
    (hfind : findOrderByTradeNo st.orders tn = some row)
    (hst : row.status = 1) (hch : ∃ c, row.channel_id = some c) :
    ∀ ce nres mf ns, processNotify st tn ce nres mf ns = st := by
  intro ce nres mf ns
  obtain ⟨c, hc⟩ := hch
  unfold processNotify
  rw [hfind]
  dsimp only
  rw [hc]
  dsimp only
  cases ce
  · rw [if_pos (by simp)]
  · rw [if_neg (by simp)]
    cases hs : nres.success
    · rw [if_neg (by simp [hs])]
    · rw [if_pos (by simp [hs]), if_neg (by simp [hst])]

theorem processReturn_eq_processNotify (st : PayState) (tn : String)
    (ce : Bool) (nres : NotifyResult) (mf ns : Bool) :
    processReturn st tn ce nres mf ns = processNotify st tn ce nres mf ns :=
  rfl

/-- C10: when the settlement amount `money − fee_money` is not positive,
`sendDownstreamNotify` never enters the balance-credit transaction: the
merchant balance is unchanged (in particular it is never debited), no
order's `balance_added` flag changes, and the merchant-facing notification
is still attempted when a `notify_url` is present. -/
theorem settlement_guard_nonpositive (st : PayState) (o : OrderRow)
    (ns : Bool) (hle : o.money - o.fee_money ≤ 0)
    (hurl : o.notify_url ≠ "") :
    (sendDownstreamNotify st o true ns).1.balance = st.balance ∧
      ((sendDownstreamNotify st o true ns).1.orders.map
          fun r => r.balance_added) =
        (st.orders.map fun r => r.balance_added) ∧
      (sendDownstreamNotify st o true ns).2 = true := by
  have hnp : ¬ (0 < o.money - o.fee_money) := not_lt.mpr hle
  unfold sendDownstreamNotify
  rw [if_neg (by simp)]
  dsimp only
  rw [if_neg hnp, if_neg hurl]
  refine ⟨rfl, ?_, rfl⟩
  simp only [setOrder, List.map_map]
  congr 1
  funext r
  by_cases h : r.id = o.id <;> simp [h, Function.comp]

theorem settlement_guard_nonpositive_witness :
    (c10order.money - c10order.fee_money ≤ 0 ∧ c10order.notify_url ≠ "") ∧
      ((sendDownstreamNotify c10st c10order true true).1.balance =
          c10st.balance ∧
        ((sendDownstreamNotify c10st c10order true true).1.orders.map
            fun r => r.balance_added) =
          (c10st.orders.map fun r => r.balance_added) ∧
        (sendDownstreamNotify c10st c10order true true).2 = true) :=
  ⟨⟨by norm_num [c10order], by decide⟩,
    settlement_guard_nonpositive c10st c10order true
      (by norm_num [c10order]) (by decide)⟩

/-- C1: starting from a pending, channel-locked order whose `balance_added`
flag is unset and whose settlement amount is positive, the first successful
delivery (the notify and return transports run the same logic) transitions
the order to paid with `balance_added` set and credits the merchant balance
by exactly `money − fee_money`; and every further delivery for the same
`trade_no`, through either transport, with any verification outcome, leaves
the state exactly unchanged — the paid transition and the balance credit
each happen exactly once, however many deliveries arrive. -/
theorem settlement_exactly_once (st0 : PayState) (o : OrderRow) (tn : String)
    (nres : NotifyResult) (ns : Bool)
    (hfind : findOrderByTradeNo st0.orders tn = some o)
    (huniq : ∀ r ∈ st0.orders, r.id = o.id → r = o)
    (h0 : o.status = 0) (hba : o.balance_added = false)
    (hch : ∃ c, o.channel_id = some c)
    (hpos : 0 < o.money - o.fee_money)
    (hsucc : nres.success = true) :
    (findOrderByTradeNo (processNotify st0 tn true nres true ns).orders
        tn).map (fun r => (r.status, r.balance_added)) = some (1, true) ∧
      (processNotify st0 tn true nres true ns).balance =
        st0.balance + (o.money - o.fee_money) ∧
      (∀ ce nres2 mf ns2,
        processNotify (processNotify st0 tn true nres true ns) tn ce nres2
          mf ns2 = processNotify st0 tn true nres true ns) ∧
      (∀ ce nres2 mf ns2,
        processReturn (processNotify st0 tn true nres true ns) tn ce nres2
          mf ns2 = processNotify st0 tn true nres true ns) ∧
      (∀ k, (fun s => processNotify s tn true nres true ns)^[k]
          (processNotify st0 tn true nres true ns) =
        processNotify st0 tn true nres true ns) ∧
      processReturn st0 tn true nres true ns =
        processNotify st0 tn true nres true ns := by
  obtain ⟨c, hc⟩ := hch
  have hfind' : List.find? (fun r => r.trade_no == tn) st0.orders = some o :=
    hfind
  have hpo : (o.trade_no == tn) = true := by
    have h := List.find?_some hfind'
    simpa using h
  have homem : o ∈ st0.orders := List.mem_of_find?_eq_some hfind'
  have hid0 : findOrderById st0.orders o.id = some o :=
    findOrderById_of_uniq st0.orders o homem huniq
  have huniq1 := uniq_setOrder st0.orders o (paidUpdate nres) o.id rfl huniq
  have hid1 : findOrderById (setOrder st0.orders o.id (paidUpdate nres))
      o.id = some (paidUpdate nres o) :=
    find?_setOrder_of_uniq st0.orders o _ _ o.id hid0 rfl huniq (by simp)
  have hfindA : findOrderByTradeNo
      (setOrder st0.orders o.id (paidUpdate nres)) tn =
      some (paidUpdate nres o) :=
    find?_setOrder_of_uniq st0.orders o _ _ o.id hfind rfl huniq
      (by simpa using hpo)
  have huniq2 := uniq_setOrder _ (paidUpdate nres o) balanceAddedUpdate o.id
    (by simp) huniq1
  have hfindB : findOrderByTradeNo (setOrder (setOrder st0.orders o.id
      (paidUpdate nres)) o.id balanceAddedUpdate) tn =
      some (balanceAddedUpdate (paidUpdate nres o)) :=
    find?_setOrder_of_uniq _ (paidUpdate nres o) _ _ o.id hfindA (by simp)
      huniq1 (by simpa using hpo)
  have hfindC : findOrderByTradeNo (setOrder (setOrder (setOrder st0.orders
      o.id (paidUpdate nres)) o.id balanceAddedUpdate) o.id
      (notifyBookkeepingUpdate ns)) tn =
      some (notifyBookkeepingUpdate ns
        (balanceAddedUpdate (paidUpdate nres o))) :=
    find?_setOrder_of_uniq _ (balanceAddedUpdate (paidUpdate nres o)) _ _
      o.id hfindB (by simp) huniq2 (by simpa using hpo)
  by_cases hn : o.notify_url = ""
  · have hstep : processNotify st0 tn true nres true ns =
        { orders := setOrder (setOrder st0.orders o.id (paidUpdate nres))
            o.id balanceAddedUpdate,
          balance := st0.balance + (o.money - o.fee_money) } := by
      unfold processNotify
      rw [hfind]
      try dsimp only
      rw [hc]
      try dsimp only
      rw [if_neg (by simp), if_pos hsucc, if_pos h0]
      try dsimp only
      rw [hid1]
      try dsimp only
      unfold sendDownstreamNotify
      rw [if_neg (by simp)]
      try dsimp only
      rw [if_pos (show (0:ℚ) < (paidUpdate nres o).money -
        (paidUpdate nres o).fee_money by simpa using hpos)]
      simp only [paidUpdate_id]
      rw [hid1]
      try dsimp only
      rw [if_pos (show ¬ (paidUpdate nres o).balance_added = true by
        simp [hba])]
      simp only [paidUpdate_notify_url]
      rw [if_pos hn]
      simp only [paidUpdate_money, paidUpdate_fee_money]
    have hfix : ∀ ce nres2 mf ns2,
        processNotify (processNotify st0 tn true nres true ns) tn ce nres2
          mf ns2 = processNotify st0 tn true nres true ns := by
      intro ce nres2 mf ns2
      rw [hstep]
      exact delivered_state_fixed _ tn (balanceAddedUpdate (paidUpdate nres o))
        hfindB (by simp) ⟨c, by simp [hc]⟩ ce nres2 mf ns2
    refine ⟨?_, by rw [hstep], hfix, ?_, ?_, rfl⟩
    · rw [hstep]
      try dsimp only
      rw [hfindB]
      simp
    · intro ce nres2 mf ns2
      rw [processReturn_eq_processNotify]
      exact hfix ce nres2 mf ns2
    · intro k
      induction k with
      | zero => rfl
      | succ n ih =>
        rw [Function.iterate_succ_apply', ih]
        exact hfix true nres true ns
  · have hstep : processNotify st0 tn true nres true ns =
        { orders := setOrder (setOrder (setOrder st0.orders o.id
            (paidUpdate nres)) o.id balanceAddedUpdate) o.id
            (notifyBookkeepingUpdate ns),
          balance := st0.balance + (o.money - o.fee_money) } := by
      unfold processNotify
      rw [hfind]
      try dsimp only
      rw [hc]
      try dsimp only
      rw [if_neg (by simp), if_pos hsucc, if_pos h0]
      try dsimp only
      rw [hid1]
      try dsimp only
      unfold sendDownstreamNotify
      rw [if_neg (by simp)]
      try dsimp only
      rw [if_pos (show (0:ℚ) < (paidUpdate nres o).money -
        (paidUpdate nres o).fee_money by simpa using hpos)]
      simp only [paidUpdate_id]
      rw [hid1]
      try dsimp only
      rw [if_pos (show ¬ (paidUpdate nres o).balance_added = true by
        simp [hba])]
      simp only [paidUpdate_notify_url]
      rw [if_neg hn]
      simp only [paidUpdate_money, paidUpdate_fee_money, paidUpdate_id]
    have hfix : ∀ ce nres2 mf ns2,
        processNotify (processNotify st0 tn true nres true ns) tn ce nres2
          mf ns2 = processNotify st0 tn true nres true ns := by
      intro ce nres2 mf ns2
      rw [hstep]
      exact delivered_state_fixed _ tn (notifyBookkeepingUpdate ns
          (balanceAddedUpdate (paidUpdate nres o)))
        hfindC (by simp) ⟨c, by simp [hc]⟩ ce nres2 mf ns2
    refine ⟨?_, by rw [hstep], hfix, ?_, ?_, rfl⟩
    · rw [hstep]
      try dsimp only
      rw [hfindC]
      simp
    · intro ce nres2 mf ns2
      rw [processReturn_eq_processNotify]
      exact hfix ce nres2 mf ns2
    · intro k
      induction k with
      | zero => rfl
      | succ n ih =>
        rw [Function.iterate_succ_apply', ih]
        exact hfix true nres true ns

theorem settlement_exactly_once_witness :
    (findOrderByTradeNo c1st.orders "TB" = some c1order ∧
      c1order.status = 0 ∧ c1order.balance_added = false ∧
      c1order.channel_id = some 5 ∧
      0 < c1order.money - c1order.fee_money ∧ c1nres.success = true) ∧
      ((findOrderByTradeNo
            (processNotify c1st "TB" true c1nres true true).orders "TB").map
          (fun r => (r.status, r.balance_added)) = some (1, true) ∧
        (processNotify c1st "TB" true c1nres true true).balance =
          c1st.balance + (c1order.money - c1order.fee_money) ∧
        (∀ ce nres2 mf ns2,
          processNotify (processNotify c1st "TB" true c1nres true true) "TB"
            ce nres2 mf ns2 = processNotify c1st "TB" true c1nres true true) ∧
        (∀ ce nres2 mf ns2,
          processReturn (processNotify c1st "TB" true c1nres true true) "TB"
            ce nres2 mf ns2 = processNotify c1st "TB" true c1nres true true) ∧
        (∀ k, (fun s => processNotify s "TB" true c1nres true true)^[k]
            (processNotify c1st "TB" true c1nres true true) =
          processNotify c1st "TB" true c1nres true true) ∧
        processReturn c1st "TB" true c1nres true true =
          processNotify c1st "TB" true c1nres true true) :=
  ⟨⟨rfl, rfl, rfl, rfl, by norm_num [c1order], rfl⟩,
    settlement_exactly_once c1st c1order "TB" c1nres true rfl
      (by
        intro r hr _
        simpa [c1st] using hr)
      rfl rfl ⟨5, rfl⟩ (by norm_num [c1order]) rfl⟩

theorem verifySign_round_trip_witness :
    verifySign [("money", "10.00"), ("pid", "1001")] "secretkey"
        (createSign [("money", "10.00"), ("pid", "1001")] "secretkey") = true ∧
      verifySign [("money", "10.00"), ("pid", "1001")] "secretkey"
        "00000000000000000000000000000000" = false ∧
      verifySign [("money", "10.01"), ("pid", "1001")] "secretkey"
        (createSign [("money", "10.00"), ("pid", "1001")] "secretkey") = false :=
  ⟨(verifySign_round_trip [("money", "10.00"), ("pid", "1001")] "secretkey").1,
   (verifySign_round_trip [("money", "10.00"), ("pid", "1001")] "secretkey").2.1
     "00000000000000000000000000000000" (by decide),
   (verifySign_round_trip [("money", "10.00"), ("pid", "1001")] "secretkey").2.2
     [("money", "10.01"), ("pid", "1001")] (by decide)⟩

end LunafirPay
